import Mathlib

/-
Shallow embedding of `src/sample/fhir-producer/producer.py`:
a Kafka FHIR sample producer with startup connection retry, a file-based
sample loader with built-in fallbacks, and an infinite round-robin send loop.
External collaborators (the Kafka client, the JSON parser, the filesystem)
are modelled as parameters or explicit data.
-/

/-! ## Connector: `create_producer` (producer.py lines 18-40)

The Python loop is `for attempt in range(max_retries)`: try to build the
producer and return it on success; on failure sleep `retry_delay` seconds
unless this was the last attempt, in which case re-raise the failure.
The underlying client's behaviour is a parameter `tryConnect` giving each
attempt's outcome; the model returns the overall outcome together with the
trace of attempts and sleeps. -/

/-- Events of the connection-retry loop: attempt number `n` was made, or the
loop slept for `secs` seconds. -/
inductive ConnEvent where
  | attempt (n : Nat)
  | sleep (secs : Nat)
deriving DecidableEq, Repr

/-- Mirrors `max_retries = 10` in `create_producer`. -/
def max_retries : Nat := 10

/-- Mirrors `retry_delay = 5` in `create_producer`. -/
def retry_delay : Nat := 5

/-- Mirrors the `for attempt in range(max_retries)` body of `create_producer`,
entered at a given attempt index: on success return the producer; on failure
sleep `retry_delay` and continue unless `attempt` was the last index, in which
case the failure propagates. -/
def connectLoop {E P : Type} (tryConnect : Nat → Except E P) (attempt : Nat) :
    Except E P × List ConnEvent :=
  match tryConnect attempt with
  | .ok p => (.ok p, [.attempt attempt])
  | .error e =>
    if h : attempt < max_retries - 1 then
      let rest := connectLoop tryConnect (attempt + 1)
      (rest.1, .attempt attempt :: .sleep retry_delay :: rest.2)
    else
      (.error e, [.attempt attempt])
termination_by max_retries - attempt
decreasing_by omega

/-- Mirrors `create_producer` (producer.py lines 18-40): run the retry loop
from attempt 0. -/
def create_producer {E P : Type} (tryConnect : Nat → Except E P) :
    Except E P × List ConnEvent :=
  connectLoop tryConnect 0

/-- Expected event trace when attempts `0..k-1` fail and attempt `k` ends the
loop: each failed attempt is followed by a `retry_delay`-second sleep. -/
def retryTrace (k : Nat) : List ConnEvent :=
  ((List.range k).map (fun j => [ConnEvent.attempt j, ConnEvent.sleep retry_delay])).flatten
    ++ [ConnEvent.attempt k]

/-- Trace of the loop entered at attempt `a` and ending at attempt `k`. -/
def retryTraceFrom (a k : Nat) : List ConnEvent :=
  ((List.range' a (k - a)).map (fun j => [ConnEvent.attempt j, ConnEvent.sleep retry_delay])).flatten
    ++ [ConnEvent.attempt k]

lemma connectLoop_ok {E P : Type} (tryConnect : Nat → Except E P) (p : P) :
    ∀ (d a k : Nat), k = a + d → k < max_retries →
    (∀ j, a ≤ j → j < k → ∃ e, tryConnect j = Except.error e) →
    tryConnect k = Except.ok p →
    connectLoop tryConnect a = (Except.ok p, retryTraceFrom a k) := by
  intro d
  induction d with
  | zero =>
    intro a k hk _ _ hok
    have hka : k = a := by omega
    subst hka
    rw [connectLoop.eq_def, hok]
    simp [retryTraceFrom]
  | succ d ih =>
    intro a k hk hlt hfail hok
    obtain ⟨e, he⟩ := hfail a (Nat.le_refl a) (by omega)
    have ha : a < max_retries - 1 := by
      have : max_retries = 10 := rfl
      omega
    rw [connectLoop.eq_def, he]
    simp only [ha, dif_pos]
    rw [ih (a + 1) k (by omega) hlt
      (fun j hj1 hj2 => hfail j (by omega) hj2) hok]
    have hsplit : k - a = (k - (a + 1)) + 1 := by omega
    simp only [retryTraceFrom, hsplit, List.range'_succ, List.map_cons, List.flatten]
    simp

lemma connectLoop_fail {E P : Type} (tryConnect : Nat → Except E P) (err : Nat → E) :
    ∀ (d a : Nat), max_retries - 1 - a = d → a < max_retries →
    (∀ j, a ≤ j → j < max_retries → tryConnect j = Except.error (err j)) →
    connectLoop tryConnect a =
      (Except.error (err (max_retries - 1)), retryTraceFrom a (max_retries - 1)) := by
  intro d
  induction d with
  | zero =>
    intro a hd hlt hfail
    have ha : a = max_retries - 1 := by omega
    subst ha
    rw [connectLoop.eq_def, hfail (max_retries - 1) (Nat.le_refl _) hlt]
    simp [retryTraceFrom]
  | succ d ih =>
    intro a hd hlt hfail
    have ha : a < max_retries - 1 := by omega
    rw [connectLoop.eq_def, hfail a (Nat.le_refl a) hlt]
    simp only [ha, dif_pos]
    rw [ih (a + 1) (by omega) (by omega) (fun j hj1 hj2 => hfail j (by omega) hj2)]
    have hsplit : max_retries - 1 - a = (max_retries - 1 - (a + 1)) + 1 := by omega
    simp only [retryTraceFrom, hsplit, List.range'_succ, List.map_cons, List.flatten]
    simp

lemma retryTrace_eq_from (k : Nat) : retryTrace k = retryTraceFrom 0 k := by
  simp [retryTrace, retryTraceFrom, List.range_eq_range']

/-- C1: `create_producer` attempts the connection up to `max_retries = 10`
times with a constant `retry_delay = 5` second sleep between consecutive
attempts, returns the producer on the first successful attempt (having made
exactly `k + 1` attempts and `k` sleeps when attempt `k` is the first
success), and when all 10 attempts fail it propagates the failure of the
10th (last) attempt — after exactly 10 attempts and 9 sleeps, never earlier,
never later. -/
theorem create_producer_retry_spec {E P : Type} (tryConnect : Nat → Except E P) :
    (∀ k p, k < max_retries →
      (∀ j, j < k → ∃ e, tryConnect j = Except.error e) →
      tryConnect k = Except.ok p →
      create_producer tryConnect = (Except.ok p, retryTrace k)) ∧
    (∀ err : Nat → E,
      (∀ j, j < max_retries → tryConnect j = Except.error (err j)) →
      create_producer tryConnect =
        (Except.error (err (max_retries - 1)), retryTrace (max_retries - 1))) := by
  constructor
  · intro k p hk hfail hok
    rw [create_producer, retryTrace_eq_from]
    exact connectLoop_ok tryConnect p k 0 k (by omega) hk
      (fun j _ hj2 => hfail j hj2) hok
  · intro err hfail
    rw [create_producer, retryTrace_eq_from]
    exact connectLoop_fail tryConnect err (max_retries - 1) 0 (by omega)
      (by simp [max_retries]) (fun j _ hj2 => hfail j hj2)

/-- Witness for C1: with a client that fails attempts 0 and 1 and succeeds on
attempt 2, `create_producer` returns that success after 3 attempts with two
5-second sleeps between them. -/
theorem create_producer_retry_spec_witness :
    create_producer (fun n => if n = 2 then Except.ok 0 else Except.error n) =
      (Except.ok 0, [ConnEvent.attempt 0, ConnEvent.sleep 5,
        ConnEvent.attempt 1, ConnEvent.sleep 5, ConnEvent.attempt 2]) := by
  have h := (create_producer_retry_spec
      (fun n => if n = 2 then Except.ok 0 else Except.error n)).1 2 0
    (by decide)
    (fun j hj => ⟨j, by
      have : j ≠ 2 := by omega
      simp [this]⟩)
    (by simp)
  rw [h]
  rfl

/-! ## Sample Loader: `load_fhir_samples` (producer.py lines 42-63)

The filesystem is explicit data: a missing directory is `none`, an existing
one is `some files` where each file has a name and either its text content or
a read failure. The JSON parser (external collaborator) is a parameter
`parses` telling which strings `json.loads` accepts. Python's
`content = f.read().strip()` trims whitespace from both ends before the
emptiness check, the validation and the append. -/

/-- Characters stripped by Python `str.strip()` (the ASCII whitespace set:
space, tab, newline, carriage return, vertical tab, form feed). -/
def pyWhitespace (c : Char) : Bool :=
  c = ' ' || c = '\t' || c = '\n' || c = '\r' || c = '\x0b' || c = '\x0c'

/-- Mirrors Python `str.strip()`: drop whitespace from both ends. -/
def pyStrip (s : String) : String :=
  ⟨((s.data.dropWhile pyWhitespace).reverse.dropWhile pyWhitespace).reverse⟩

/-- Mirrors `samples_dir.glob('*.json')` membership: the file name ends with
`.json`. -/
def globJson (name : String) : Bool :=
  ".json".data.isSuffixOf name.data

/-- One directory entry: a file name and either its text content or a read
error (any `open`/`read` exception). -/
structure SFile where
  name : String
  content : Except Unit String

instance : DecidableEq (Except Unit String) := fun a b =>
  match a, b with
  | .error _, .error _ => isTrue (by rfl)
  | .ok x, .ok y =>
    if h : x = y then isTrue (by rw [h]) else isFalse (by intro hc; cases hc; exact h rfl)
  | .error _, .ok _ => isFalse (by intro hc; cases hc)
  | .ok _, .error _ => isFalse (by intro hc; cases hc)

instance : DecidableEq SFile := fun a b =>
  if h1 : a.name = b.name then
    if h2 : a.content = b.content then
      isTrue (by cases a; cases b; cases h1; cases h2; rfl)
    else isFalse (by intro hc; cases hc; exact h2 rfl)
  else isFalse (by intro hc; cases hc; exact h1 rfl)

/-- Mirrors `load_fhir_samples` (producer.py lines 42-63). `dir` is `none`
when `samples_dir.exists()` is false; the per-file `try` body strips the
content, skips it when empty, validates it with `parses` (the `json.loads`
call) and appends the stripped content; a read error or parse failure skips
the file. -/
def load_fhir_samples (parses : String → Bool) (dir : Option (List SFile)) :
    List String :=
  match dir with
  | none => []
  | some files =>
    (files.filter (fun f => globJson f.name)).filterMap fun f =>
      match f.content with
      | .error _ => none
      | .ok raw =>
        let content := pyStrip raw
        if !content.isEmpty && parses content then some content else none

/-- A directory entry that contributes an element to the loaded sequence:
a `.json` file that reads successfully, whose stripped content is non-empty
and parses as JSON. -/
def validSample (parses : String → Bool) (f : SFile) : Bool :=
  globJson f.name &&
    match f.content with
    | .error _ => false
    | .ok raw => !(pyStrip raw).isEmpty && parses (pyStrip raw)

/-- Stripped content of a file (the element it contributes when valid). -/
def sampleOf (f : SFile) : String :=
  pyStrip (f.content.toOption.getD "")

lemma load_fhir_samples_cons (parses : String → Bool) (f : SFile) (fs : List SFile) :
    load_fhir_samples parses (some (f :: fs)) =
      (if validSample parses f then [sampleOf f] else [])
        ++ load_fhir_samples parses (some fs) := by
  simp only [load_fhir_samples, List.filter_cons]
  by_cases hn : globJson f.name
  · simp only [hn, if_true, List.filterMap_cons]
    cases hc : f.content with
    | error e =>
      have hv : validSample parses f = false := by simp [validSample, hc]
      simp [hv]
    | ok raw =>
      by_cases hcond : (!(pyStrip raw).isEmpty && parses (pyStrip raw)) = true
      · have hv : validSample parses f = true := by
          simp only [validSample, hc, hn, Bool.true_and]
          exact hcond
        simp [hv, hcond, sampleOf, hc, Except.toOption]
      · have hcond' : (!(pyStrip raw).isEmpty && parses (pyStrip raw)) = false := by
          simp_all
        have hv : validSample parses f = false := by
          simp only [validSample, hc, hn, Bool.true_and]
          exact hcond'
        simp [hv, hcond']
  · have hv : validSample parses f = false := by
      simp [validSample, hn]
    simp [hn, hv]

lemma length_load_fhir_samples (parses : String → Bool) (files : List SFile) :
    (load_fhir_samples parses (some files)).length =
      files.countP (validSample parses) := by
  induction files with
  | nil => rfl
  | cons f fs ih =>
    rw [load_fhir_samples_cons, List.countP_cons]
    by_cases hv : validSample parses f <;> simp [hv, ih]

lemma mem_load_fhir_samples (parses : String → Bool) (files : List SFile)
    (s : String) :
    s ∈ load_fhir_samples parses (some files) ↔
      ∃ f ∈ files, validSample parses f = true ∧ s = sampleOf f := by
  induction files with
  | nil => simp [load_fhir_samples]
  | cons f fs ih =>
    rw [load_fhir_samples_cons]
    by_cases hv : validSample parses f <;> simp [hv, ih]

/-- C3: `load_fhir_samples` is total (never raises). A missing directory
yields the empty sequence; otherwise the result's length equals the number of
directory entries that are `.json` files with readable, non-empty-after-trim,
valid-JSON content; and a file that is invalid or empty is skipped without
affecting what is loaded from the remaining files. -/
theorem load_fhir_samples_total_count (parses : String → Bool)
    (dir : Option (List SFile)) :
    (dir = none → load_fhir_samples parses dir = []) ∧
    (∀ files, dir = some files →
      (load_fhir_samples parses dir).length = files.countP (validSample parses)) ∧
    (∀ xs ys f, validSample parses f = false →
      load_fhir_samples parses (some (xs ++ f :: ys)) =
        load_fhir_samples parses (some (xs ++ ys))) := by
  refine ⟨?_, ?_, ?_⟩
  · intro h
    rw [h]
    rfl
  · intro files h
    rw [h]
    exact length_load_fhir_samples parses files
  · intro xs ys f hf
    induction xs with
    | nil =>
      simp only [List.nil_append, load_fhir_samples_cons, hf]
      simp
    | cons x xs ih =>
      simp only [List.cons_append, load_fhir_samples_cons, ih]

/-- Witness for C3: a directory with one valid file, one whitespace-only
file, one non-`.json` file, one unreadable file and one unparsable file
loads exactly one sample, and dropping the empty file does not change the
result. -/
theorem load_fhir_samples_total_count_witness :
    (load_fhir_samples (fun s => s = "\x7b\x7d")
        (some [⟨"a.json", Except.ok " \x7b\x7d "⟩, ⟨"b.json", Except.ok "   "⟩,
          ⟨"c.txt", Except.ok "\x7b\x7d"⟩, ⟨"d.json", Except.error ()⟩,
          ⟨"e.json", Except.ok "nope"⟩])).length = 1 ∧
    load_fhir_samples (fun s => s = "\x7b\x7d")
        (some ([⟨"a.json", Except.ok " \x7b\x7d "⟩] ++ ⟨"b.json", Except.ok "   "⟩ ::
          [⟨"c.txt", Except.ok "\x7b\x7d"⟩])) =
      load_fhir_samples (fun s => s = "\x7b\x7d")
        (some ([⟨"a.json", Except.ok " \x7b\x7d "⟩] ++ [⟨"c.txt", Except.ok "\x7b\x7d"⟩])) := by
  constructor
  · rw [(load_fhir_samples_total_count (fun s => s = "\x7b\x7d") _).2.1 _ rfl]
    decide
  · exact (load_fhir_samples_total_count (fun s => s = "\x7b\x7d")
      (some ([⟨"a.json", Except.ok " \x7b\x7d "⟩] ++ ⟨"b.json", Except.ok "   "⟩ ::
        [⟨"c.txt", Except.ok "\x7b\x7d"⟩]))).2.2
      [⟨"a.json", Except.ok " \x7b\x7d "⟩] [⟨"c.txt", Except.ok "\x7b\x7d"⟩]
      ⟨"b.json", Except.ok "   "⟩ (by decide)

/-- C2 counterexample: the claim says the appended element equals the raw
original text of the file. For a valid `.json` file whose raw content is
`" {}\n"` (JSON surrounded by whitespace), the loader appends the stripped
text `"{}"`, not the raw text: the code runs `content = f.read().strip()`
and appends `content`. -/
theorem load_appends_raw_counterexample :
    load_fhir_samples (fun s => s = "\x7b\x7d")
        (some [⟨"a.json", Except.ok " \x7b\x7d\n"⟩]) = ["\x7b\x7d"] ∧
    (" \x7b\x7d\n" : String) ≠ "\x7b\x7d" := by
  decide

/-- C2 (amended): for every `.json` file that reads successfully, whose
content is non-empty after trimming and parses as valid JSON, the element the
loader appends is the whitespace-trimmed original text of the file — still
the raw text read from the file (not the reparsed structure and not any
other transformation), but with leading and trailing whitespace removed by
`strip()`. -/
theorem load_appends_trimmed_text (parses : String → Bool) (files : List SFile)
    (f : SFile) (raw : String) (hmem : f ∈ files)
    (hname : globJson f.name = true) (hraw : f.content = Except.ok raw)
    (hne : (pyStrip raw).isEmpty = false) (hparse : parses (pyStrip raw) = true) :
    pyStrip raw ∈ load_fhir_samples parses (some files) := by
  rw [mem_load_fhir_samples]
  refine ⟨f, hmem, ?_, ?_⟩
  · simp [validSample, hname, hraw, hne, hparse]
  · simp [sampleOf, hraw, Except.toOption]

/-- Witness for C2 (amended): the file `"a.json"` with content `" {} "`
contributes the trimmed text `"{}"` to the loaded sequence. -/
theorem load_appends_trimmed_text_witness :
    pyStrip " \x7b\x7d " ∈ load_fhir_samples (fun s => s = "\x7b\x7d")
      (some [⟨"a.json", Except.ok " \x7b\x7d "⟩]) :=
  load_appends_trimmed_text (fun s => s = "\x7b\x7d") _ _ _
    (List.mem_singleton.2 rfl) (by decide) rfl (by decide) (by decide)
/-! ## Built-in default payloads: `generate_sample_fhir_resources`
(producer.py lines 65-122) and the fallback in `main` (lines 148-151)

The structured values the Python code builds are dict/list/str/int/bool
literals; `json.dumps` (with its default separators `", "` and `": "`,
insertion-ordered keys, `true`/`false` booleans and unescaped ASCII) is
modelled by `dumps`. -/

/-- JSON-like structured values as built by the Python code: strings,
integers, booleans, lists and insertion-ordered dicts. -/
inductive Json where
  | str (s : String)
  | num (n : Int)
  | bool (b : Bool)
  | arr (xs : List Json)
  | obj (fields : List (String × Json))

/-- Escaping of one character inside a JSON string literal (the default
`json.dumps` escapes; the fixture strings contain neither quotes,
backslashes nor control characters). -/
def jescapeChar (c : Char) : String :=
  if c = '\\' then "\\\\" else if c = '"' then "\\\"" else String.singleton c

/-- A JSON string literal: escaped content between double quotes. -/
def jquote (s : String) : String :=
  "\"" ++ String.join (s.data.map jescapeChar) ++ "\""

mutual

/-- Mirrors `json.dumps` with its defaults: separators `", "` and `": "`,
keys in insertion order, `true`/`false` for booleans, decimal integers. -/
def dumps : Json → String
  | .str s => jquote s
  | .num n => toString n
  | .bool b => if b then "true" else "false"
  | .arr xs => "[" ++ dumpsArr xs ++ "]"
  | .obj fs => "\x7b" ++ dumpsObj fs ++ "\x7d"

/-- Comma-separated serialization of a JSON array's elements. -/
def dumpsArr : List Json → String
  | [] => ""
  | [x] => dumps x
  | x :: y :: xs => dumps x ++ ", " ++ dumpsArr (y :: xs)

/-- Comma-separated serialization of a JSON object's key-value pairs. -/
def dumpsObj : List (String × Json) → String
  | [] => ""
  | [(k, v)] => jquote k ++ ": " ++ dumps v
  | (k, v) :: p :: fs => jquote k ++ ": " ++ dumps v ++ ", " ++ dumpsObj (p :: fs)

end

/-- Mirrors `generate_sample_fhir_resources` (producer.py lines 65-122):
the built-in Patient record followed by the built-in Observation record,
with the literal field names and values of the Python source. -/
def generate_sample_fhir_resources : List Json :=
  [Json.obj [
    ("resourceType", Json.str "Patient"),
    ("id", Json.str "example-patient-1"),
    ("identifier", Json.arr [
      Json.obj [
        ("system", Json.str "http://hospital.example.org/patients"),
        ("value", Json.str "12345")]]),
    ("name", Json.arr [
      Json.obj [
        ("use", Json.str "official"),
        ("family", Json.str "Doe"),
        ("given", Json.arr [Json.str "John"])]]),
    ("gender", Json.str "male"),
    ("birthDate", Json.str "1990-01-01"),
    ("active", Json.bool true)],
   Json.obj [
    ("resourceType", Json.str "Observation"),
    ("id", Json.str "example-observation-1"),
    ("status", Json.str "final"),
    ("category", Json.arr [
      Json.obj [
        ("coding", Json.arr [
          Json.obj [
            ("system", Json.str "http://terminology.hl7.org/CodeSystem/observation-category"),
            ("code", Json.str "vital-signs"),
            ("display", Json.str "Vital Signs")]])]]),
    ("code", Json.obj [
      ("coding", Json.arr [
        Json.obj [
          ("system", Json.str "http://loinc.org"),
          ("code", Json.str "8867-4"),
          ("display", Json.str "Heart rate")]])]),
    ("subject", Json.obj [
      ("reference", Json.str "Patient/example-patient-1")]),
    ("valueQuantity", Json.obj [
      ("value", Json.num 72),
      ("unit", Json.str "beats/minute"),
      ("system", Json.str "http://unitsofmeasure.org"),
      ("code", Json.str "/min")])]]

/-- Mirrors the fallback in `main` (producer.py lines 148-151): when the
loaded list is empty, replace it with the generated samples serialized by
`json.dumps`; otherwise keep the loaded list. -/
def effectiveSamples (loaded : List String) : List String :=
  if loaded.isEmpty then generate_sample_fhir_resources.map dumps else loaded

set_option maxRecDepth 20000 in
/-- C4: whenever the loaded sequence is empty, the effective payload set is
exactly the two built-in defaults serialized to text, in fixed order: the
Patient record first, then the Observation record, with the literal field
sets and values of the source. -/
theorem effectiveSamples_empty_defaults (loaded : List String)
    (h : loaded = []) :
    effectiveSamples loaded =
      ["\x7b\"resourceType\": \"Patient\", \"id\": \"example-patient-1\", \"identifier\": [\x7b\"system\": \"http://hospital.example.org/patients\", \"value\": \"12345\"\x7d], \"name\": [\x7b\"use\": \"official\", \"family\": \"Doe\", \"given\": [\"John\"]\x7d], \"gender\": \"male\", \"birthDate\": \"1990-01-01\", \"active\": true\x7d",
       "\x7b\"resourceType\": \"Observation\", \"id\": \"example-observation-1\", \"status\": \"final\", \"category\": [\x7b\"coding\": [\x7b\"system\": \"http://terminology.hl7.org/CodeSystem/observation-category\", \"code\": \"vital-signs\", \"display\": \"Vital Signs\"\x7d]\x7d], \"code\": \x7b\"coding\": [\x7b\"system\": \"http://loinc.org\", \"code\": \"8867-4\", \"display\": \"Heart rate\"\x7d]\x7d, \"subject\": \x7b\"reference\": \"Patient/example-patient-1\"\x7d, \"valueQuantity\": \x7b\"value\": 72, \"unit\": \"beats/minute\", \"system\": \"http://unitsofmeasure.org\", \"code\": \"/min\"\x7d\x7d"] := by
  subst h
  decide

/-- Witness for C4: the fallback applied to the empty loaded list. -/
theorem effectiveSamples_empty_defaults_witness :
    effectiveSamples [] =
      ["\x7b\"resourceType\": \"Patient\", \"id\": \"example-patient-1\", \"identifier\": [\x7b\"system\": \"http://hospital.example.org/patients\", \"value\": \"12345\"\x7d], \"name\": [\x7b\"use\": \"official\", \"family\": \"Doe\", \"given\": [\"John\"]\x7d], \"gender\": \"male\", \"birthDate\": \"1990-01-01\", \"active\": true\x7d",
       "\x7b\"resourceType\": \"Observation\", \"id\": \"example-observation-1\", \"status\": \"final\", \"category\": [\x7b\"coding\": [\x7b\"system\": \"http://terminology.hl7.org/CodeSystem/observation-category\", \"code\": \"vital-signs\", \"display\": \"Vital Signs\"\x7d]\x7d], \"code\": \x7b\"coding\": [\x7b\"system\": \"http://loinc.org\", \"code\": \"8867-4\", \"display\": \"Heart rate\"\x7d]\x7d, \"subject\": \x7b\"reference\": \"Patient/example-patient-1\"\x7d, \"valueQuantity\": \x7b\"value\": 72, \"unit\": \"beats/minute\", \"system\": \"http://unitsofmeasure.org\", \"code\": \"/min\"\x7d\x7d"] :=
  effectiveSamples_empty_defaults [] rfl
/-! ## Send Loop (producer.py lines 155-185)

The loop body: when the sample list is empty, warn and sleep; otherwise
select `fhir_samples[sample_index % len(fhir_samples)]`, increment the
cursor, submit the payload (`producer.send` + `future.get(timeout=10)`,
whose outcome the broker decides: an acknowledgment, a `KafkaError`, or any
other exception), log the outcome, and sleep `send_interval` seconds. The
broker's behaviour is a parameter `send`. -/

/-- Broker acknowledgment: the record metadata returned by `future.get`. -/
structure Ack where
  topic : String
  partition : Nat
  offset : Nat

/-- Outcome of one `producer.send` + `future.get(timeout=10)` call: an
acknowledgment, a `KafkaError`, or any other exception. -/
inductive SendOutcome where
  | ack (a : Ack)
  | kafkaError (msg : String)
  | unexpectedError (msg : String)

/-- Observable events of one send-loop iteration. -/
inductive LoopEvent where
  | warnNoSamples
  | submitted (payload : String)
  | logSent (topic : String) (partition offset : Nat)
  | logSendError (msg : String)
  | slept (secs : Nat)
deriving DecidableEq, Repr

/-- Tests whether an event is a payload submission to the broker. -/
def LoopEvent.isSubmitted : LoopEvent → Bool
  | .submitted _ => true
  | _ => false

/-- Mirrors `fhir_samples[sample_index % len(fhir_samples)]` (producer.py
line 163). -/
def selectSample (samples : List String) (i : Nat) : String :=
  samples.getD (i % samples.length) ""

/-- Mirrors one iteration of the `while True` body (producer.py lines
157-179): empty-list branch warns and sleeps without touching the cursor;
otherwise select, increment, submit (with both `except` clauses absorbing
failures into an error log), and sleep `send_interval` regardless. Returns
the new cursor and the iteration's event trace. -/
def loopIter (send_interval : Nat) (samples : List String) (cursor : Nat)
    (send : String → SendOutcome) : Nat × List LoopEvent :=
  if samples.isEmpty then
    (cursor, [LoopEvent.warnNoSamples, LoopEvent.slept send_interval])
  else
    let fhir_resource := selectSample samples cursor
    let sendEvents :=
      match send fhir_resource with
      | .ack a => [LoopEvent.logSent a.topic a.partition a.offset]
      | .kafkaError msg => [LoopEvent.logSendError msg]
      | .unexpectedError msg => [LoopEvent.logSendError msg]
    (cursor + 1,
      LoopEvent.submitted fhir_resource :: sendEvents ++ [LoopEvent.slept send_interval])

/-- Cursor value before iteration `i`: `sample_index` starts at 0 and each
iteration updates it through `loopIter`. -/
def cursorBefore (send_interval : Nat) (samples : List String)
    (send : String → SendOutcome) : Nat → Nat
  | 0 => 0
  | i + 1 => (loopIter send_interval samples (cursorBefore send_interval samples send i) send).1

lemma isEmpty_false_of_ne_nil {α : Type} {l : List α} (h : l ≠ []) :
    l.isEmpty = false := by
  cases l with
  | nil => exact absurd rfl h
  | cons x xs => rfl

/-- C5: payload selection is a pure round-robin. For a non-empty sample list
the cursor before iteration `i` (0-indexed) is `i`, iteration `i` selects
sample `i mod N` and increments the cursor by one, and selection is periodic:
`select(i) = select(i + N)`. -/
theorem round_robin_selection (samples : List String) (i : Nat)
    (h : samples ≠ []) :
    (∀ interval send, cursorBefore interval samples send i = i) ∧
    (∀ interval send, (loopIter interval samples i send).1 = i + 1) ∧
    selectSample samples i = samples.getD (i % samples.length) "" ∧
    selectSample samples (i + samples.length) = selectSample samples i := by
  have he : samples.isEmpty = false := isEmpty_false_of_ne_nil h
  refine ⟨?_, ?_, rfl, ?_⟩
  · intro interval send
    induction i with
    | zero => rfl
    | succ i ih =>
      show (loopIter interval samples (cursorBefore interval samples send i) send).1 = i + 1
      rw [ih, loopIter, he]
      simp
  · intro interval send
    rw [loopIter, he]
    simp
  · unfold selectSample
    rw [Nat.add_mod_right]

/-- Witness for C5: with two samples, the cursor before iteration 3 is 3,
iteration 3 selects sample `3 mod 2 = 1` and moves the cursor to 4, and
selection at 3 and at 3 + 2 agree. -/
theorem round_robin_selection_witness :
    cursorBefore 10 ["a", "b"] (fun _ => SendOutcome.kafkaError "boom") 3 = 3 ∧
    (loopIter 10 ["a", "b"] 3 (fun _ => SendOutcome.kafkaError "boom")).1 = 3 + 1 ∧
    selectSample ["a", "b"] (3 + 2) = selectSample ["a", "b"] 3 := by
  obtain ⟨h1, h2, _, h4⟩ := round_robin_selection ["a", "b"] 3 (by decide)
  exact ⟨h1 10 (fun _ => SendOutcome.kafkaError "boom"),
    h2 10 (fun _ => SendOutcome.kafkaError "boom"), h4⟩

/-- C6: in every iteration on a non-empty sample list the payload is
submitted exactly once (no retry at this layer), the iteration ends with a
sleep of `send_interval` seconds regardless of the send outcome, the cursor
advances to the next iteration, and a `KafkaError` or any other unexpected
error is absorbed into a single error log — the iteration still returns
normally, so no steady-state send failure terminates the loop. -/
theorem send_loop_absorbs_errors (interval : Nat) (samples : List String)
    (cursor : Nat) (send : String → SendOutcome) (h : samples ≠ []) :
    (loopIter interval samples cursor send).1 = cursor + 1 ∧
    ((loopIter interval samples cursor send).2.countP
      (fun e => e.isSubmitted)) = 1 ∧
    (loopIter interval samples cursor send).2.getLast? =
      some (LoopEvent.slept interval) ∧
    (∀ msg, send (selectSample samples cursor) = SendOutcome.kafkaError msg ∨
        send (selectSample samples cursor) = SendOutcome.unexpectedError msg →
      (loopIter interval samples cursor send).2 =
        [LoopEvent.submitted (selectSample samples cursor),
         LoopEvent.logSendError msg, LoopEvent.slept interval]) := by
  have he : samples.isEmpty = false := isEmpty_false_of_ne_nil h
  refine ⟨?_, ?_, ?_, ?_⟩
  · simp [loopIter, he]
  · simp only [loopIter, he]
    cases hs : send (selectSample samples cursor) <;>
      simp [LoopEvent.isSubmitted]
  · simp only [loopIter, he]
    cases hs : send (selectSample samples cursor) <;> simp
  · intro msg hmsg
    simp only [loopIter, he]
    rcases hmsg with hm | hm <;> rw [hm] <;> simp

/-- Witness for C6: a broker that always raises a `KafkaError` still yields a
normally-returning iteration that submits once, logs one error and sleeps. -/
theorem send_loop_absorbs_errors_witness :
    (loopIter 10 ["x"] 0 (fun _ => SendOutcome.kafkaError "boom")).1 = 0 + 1 ∧
    (loopIter 10 ["x"] 0 (fun _ => SendOutcome.kafkaError "boom")).2 =
      [LoopEvent.submitted (selectSample ["x"] 0), LoopEvent.logSendError "boom",
       LoopEvent.slept 10] := by
  obtain ⟨h1, _, _, h4⟩ := send_loop_absorbs_errors 10 ["x"] 0
    (fun _ => SendOutcome.kafkaError "boom") (by decide)
  exact ⟨h1, h4 "boom" (Or.inl rfl)⟩
/-! ## Shutdown: `try / except KeyboardInterrupt / finally` in `main`
(producer.py lines 155-185)

The `while True` loop has no normal completion; it is left either by a
`KeyboardInterrupt` (caught, logged) or by a fatal error propagating out of
the loop. In both cases the `finally` block runs: `producer.close()` and the
final log line. A run is modelled by the event traces of the iterations that
completed before the exit and the exit reason. -/

/-- How control leaves the `while True` loop. -/
inductive ExitReason where
  | interrupt
  | fatal (msg : String)
deriving DecidableEq, Repr

/-- Process-level events around the loop. -/
inductive MainEvent where
  | loopEv (e : LoopEvent)
  | logStopping
  | closed
  | logStopped
deriving DecidableEq, Repr

/-- Tests whether a process-level event is a payload submission. -/
def MainEvent.isSend : MainEvent → Bool
  | .loopEv (.submitted _) => true
  | _ => false

/-- Mirrors the `try / except KeyboardInterrupt / finally` structure of
`main`: the completed iterations' events, then — on interrupt — the
"Stopping" log, the `finally` close and the "stopped" log with no error
propagated; on a fatal error the `finally` close and the "stopped" log,
with the error re-raised after the `finally` block. -/
def sendLoopRun (iterTraces : List (List LoopEvent)) (reason : ExitReason) :
    List MainEvent × Option String :=
  let body := iterTraces.flatten.map MainEvent.loopEv
  match reason with
  | .interrupt =>
    (body ++ [MainEvent.logStopping, MainEvent.closed, MainEvent.logStopped], none)
  | .fatal msg =>
    (body ++ [MainEvent.closed, MainEvent.logStopped], some msg)

/-- Events strictly after the first `closed` event of a trace. -/
def afterClose (tr : List MainEvent) : List MainEvent :=
  (tr.dropWhile (fun e => e != MainEvent.closed)).tail

lemma dropWhile_append_of_all {α : Type} (p : α → Bool) (l₁ l₂ : List α)
    (h : ∀ x ∈ l₁, p x = true) :
    (l₁ ++ l₂).dropWhile p = l₂.dropWhile p := by
  induction l₁ with
  | nil => rfl
  | cons x xs ih =>
    rw [List.cons_append, List.dropWhile_cons, h x (List.mem_cons_self x xs)]
    exact ih (fun y hy => h y (List.mem_cons_of_mem x hy))

lemma body_all_ne_closed (iterTraces : List (List LoopEvent)) :
    ∀ x ∈ iterTraces.flatten.map MainEvent.loopEv, (x != MainEvent.closed) = true := by
  intro x hx
  obtain ⟨e, _, rfl⟩ := List.mem_map.1 hx
  rfl

/-- C7: on every exit path out of the send loop — operator interrupt or a
fatal error propagating out of the loop — the broker connection is closed
exactly once by the `finally` block, no payload submission occurs after the
close, and an interrupt is consumed (nothing propagates) so the process ends
cleanly. -/
theorem connection_closed_once (iterTraces : List (List LoopEvent))
    (reason : ExitReason) :
    (sendLoopRun iterTraces reason).1.count MainEvent.closed = 1 ∧
    (afterClose (sendLoopRun iterTraces reason).1).countP
      (fun e => e.isSend) = 0 ∧
    (reason = ExitReason.interrupt → (sendLoopRun iterTraces reason).2 = none) := by
  have hcount : (iterTraces.flatten.map MainEvent.loopEv).count MainEvent.closed = 0 := by
    rw [List.count_eq_zero]
    intro hmem
    obtain ⟨e, _, he⟩ := List.mem_map.1 hmem
    cases he
  cases reason with
  | interrupt =>
    refine ⟨?_, ?_, fun _ => rfl⟩
    · simp only [sendLoopRun, List.count_append, hcount]
      rfl
    · simp only [sendLoopRun, afterClose,
        dropWhile_append_of_all _ _ _ (body_all_ne_closed iterTraces)]
      rfl
  | fatal msg =>
    refine ⟨?_, ?_, fun hc => by cases hc⟩
    · simp only [sendLoopRun, List.count_append, hcount]
      rfl
    · simp only [sendLoopRun, afterClose,
        dropWhile_append_of_all _ _ _ (body_all_ne_closed iterTraces)]
      rfl

/-- Witness for C7: a one-iteration run ended by an interrupt closes the
connection once, has no sends after the close, and propagates nothing. -/
theorem connection_closed_once_witness :
    (sendLoopRun [[LoopEvent.submitted "x", LoopEvent.slept 10]]
      ExitReason.interrupt).1.count MainEvent.closed = 1 ∧
    (sendLoopRun [[LoopEvent.submitted "x", LoopEvent.slept 10]]
      ExitReason.interrupt).2 = none := by
  obtain ⟨h1, _, h3⟩ := connection_closed_once
    [[LoopEvent.submitted "x", LoopEvent.slept 10]] ExitReason.interrupt
  exact ⟨h1, h3 rfl⟩

/-- C9 (implicit): after startup the sample list in use is never empty —
the fallback installs the two defaults whenever the loader returned nothing —
so every iteration of the loop takes the non-empty branch: it submits the
round-robin payload as its first event, advances the cursor, and the
empty-samples warning is unreachable. -/
theorem effective_samples_nonempty (loaded : List String) (interval cursor : Nat)
    (send : String → SendOutcome) :
    effectiveSamples loaded ≠ [] ∧
    (loopIter interval (effectiveSamples loaded) cursor send).1 = cursor + 1 ∧
    (loopIter interval (effectiveSamples loaded) cursor send).2.head? =
      some (LoopEvent.submitted (selectSample (effectiveSamples loaded) cursor)) ∧
    LoopEvent.warnNoSamples ∉ (loopIter interval (effectiveSamples loaded) cursor send).2 := by
  have hne : effectiveSamples loaded ≠ [] := by
    unfold effectiveSamples
    cases loaded with
    | nil => simp [generate_sample_fhir_resources]
    | cons x xs => simp
  have he : (effectiveSamples loaded).isEmpty = false := isEmpty_false_of_ne_nil hne
  refine ⟨hne, ?_, ?_, ?_⟩
  · simp [loopIter, he]
  · simp [loopIter, he]
  · simp only [loopIter, he]
    cases hs : send (selectSample (effectiveSamples loaded) cursor) <;> simp

/-! ## Configuration and `main`'s startup (producer.py lines 124-153)

The environment variables read at startup. The Azure variables are read and
logged (lines 129-146) but appear nowhere else in the program; the sends of a
run are a function of the topic, the interval, the loaded samples and the
broker behaviour only. -/

/-- Environment configuration read by `main` (producer.py lines 124-133):
the Kafka and sample settings with their defaults applied, and the optional
Azure variables (`azure_scope` has a default, the others are `None` when
unset). -/
structure EnvConfig where
  kafka_bootstrap_servers : String
  kafka_topic : String
  fhir_samples_path : String
  send_interval_seconds : Nat
  azure_tenant_id : Option String
  azure_client_id : Option String
  azure_client_secret : Option String
  azure_fhir_url : Option String
  azure_scope : String

/-- Python `f"...{x}"` rendering of an optional string (`None` when unset). -/
def optShow : Option String → String
  | none => "None"
  | some s => s

/-- Mirrors the startup `logger.info` lines of `main` (producer.py lines
142-146): the Azure URL and tenant id are logged — this is their only use. -/
def startupLogs (cfg : EnvConfig) : List String :=
  ["Starting FHIR producer for topic: " ++ cfg.kafka_topic,
   "Samples path: " ++ cfg.fhir_samples_path,
   "Send interval: " ++ toString cfg.send_interval_seconds ++ " seconds",
   "Azure FHIR URL: " ++ optShow cfg.azure_fhir_url,
   "Azure Tenant ID: " ++ optShow cfg.azure_tenant_id]

/-- Cursor and accumulated event trace after `n` iterations of the send
loop. -/
def runIters (send_interval : Nat) (samples : List String)
    (send : String → SendOutcome) : Nat → Nat × List LoopEvent
  | 0 => (0, [])
  | n + 1 =>
    let prev := runIters send_interval samples send n
    let step := loopIter send_interval samples prev.1 send
    (step.1, prev.2 ++ step.2)

/-- Payloads submitted to the broker in an event trace, in order. -/
def submittedPayloads (evs : List LoopEvent) : List String :=
  evs.filterMap fun e =>
    match e with
    | .submitted p => some p
    | _ => none

/-- The (topic, payload) pairs the program hands to `producer.send` during
the first `n` iterations of a run of `main`, as a function of the full
environment configuration. -/
def sendsOfRun (cfg : EnvConfig) (loaded : List String)
    (send : String → SendOutcome) (n : Nat) : List (String × String) :=
  (submittedPayloads
      (runIters cfg.send_interval_seconds (effectiveSamples loaded) send n).2).map
    (fun p => (cfg.kafka_topic, p))

/-- C8: the Azure cloud-auth variables are logged only. Two runs whose
configurations agree on the broker address, topic, samples path and send
interval — and may differ arbitrarily in the Azure tenant/client/secret/URL/
scope variables — with the same loaded samples and the same broker behaviour
submit the identical sequence of payloads to the identical topic. -/
theorem azure_vars_do_not_affect_sends (c1 c2 : EnvConfig)
    (loaded : List String) (send : String → SendOutcome) (n : Nat)
    (_hboot : c1.kafka_bootstrap_servers = c2.kafka_bootstrap_servers)
    (htopic : c1.kafka_topic = c2.kafka_topic)
    (_hpath : c1.fhir_samples_path = c2.fhir_samples_path)
    (hint : c1.send_interval_seconds = c2.send_interval_seconds) :
    sendsOfRun c1 loaded send n = sendsOfRun c2 loaded send n := by
  unfold sendsOfRun
  rw [htopic, hint]

/-- Witness for C8: two configurations differing only in every Azure field
produce the same sends over one iteration. -/
theorem azure_vars_do_not_affect_sends_witness :
    sendsOfRun
      ⟨"localhost:9092", "fhir-resources", "/app/samples", 10,
        some "tenant-a", some "client-a", some "secret-a",
        some "https://a.example", "scope-a"⟩
      ["payload"] (fun _ => SendOutcome.ack ⟨"fhir-resources", 0, 0⟩) 1 =
    sendsOfRun
      ⟨"localhost:9092", "fhir-resources", "/app/samples", 10,
        none, none, none, none, "https://azurehealthcareapis.com/.default"⟩
      ["payload"] (fun _ => SendOutcome.ack ⟨"fhir-resources", 0, 0⟩) 1 :=
  azure_vars_do_not_affect_sends _ _ ["payload"]
    (fun _ => SendOutcome.ack ⟨"fhir-resources", 0, 0⟩) 1 rfl rfl rfl rfl

/-! ## Value serializer (producer.py lines 25-27) and C10

`value_serializer=lambda x: x.encode('utf-8') if isinstance(x, str) else
json.dumps(x).encode('utf-8')`: the serializer is dynamically typed over
text and structured payloads. -/

/-- A Python value handed to the producer: either a text string or a
structured (dict/list) value. -/
inductive PyValue where
  | text (s : String)
  | structured (j : Json)

/-- UTF-8 encoding of a string (`str.encode('utf-8')`). -/
def encodeUtf8 (s : String) : List UInt8 :=
  s.toUTF8.toList

/-- Mirrors the `value_serializer` lambda (producer.py line 27): a string is
UTF-8 encoded directly; anything else is passed through `json.dumps` first. -/
def value_serializer : PyValue → List UInt8
  | .text x => encodeUtf8 x
  | .structured x => encodeUtf8 (dumps x)

/-- Tests whether the serializer takes its encode-text branch (the
`isinstance(x, str)` test). -/
def serializerTextBranch : PyValue → Bool
  | .text _ => true
  | .structured _ => false

/-- The payload values held in `fhir_samples` when the loop starts, with
their Python types: file-loaded samples are the text read from the files;
the fallback defaults are serialized to text by `json.dumps` before the loop
(producer.py lines 148-151). -/
def effectivePayloadValues (loaded : List String) : List PyValue :=
  if loaded.isEmpty then
    generate_sample_fhir_resources.map (fun sample => PyValue.text (dumps sample))
  else
    loaded.map PyValue.text

/-- C10 (implicit): every payload the program submits is already a text
string, so the dynamically-typed value serializer always takes its
encode-text branch (never the structured branch) and is total on the
program's payloads. -/
theorem payloads_always_text (loaded : List String) (v : PyValue)
    (h : v ∈ effectivePayloadValues loaded) :
    ∃ s, v = PyValue.text s ∧ serializerTextBranch v = true ∧
      value_serializer v = encodeUtf8 s := by
  unfold effectivePayloadValues at h
  by_cases hl : loaded.isEmpty
  · rw [if_pos hl] at h
    obtain ⟨sample, _, rfl⟩ := List.mem_map.1 h
    exact ⟨dumps sample, rfl, rfl, rfl⟩
  · rw [if_neg hl] at h
    obtain ⟨s, _, rfl⟩ := List.mem_map.1 h
    exact ⟨s, rfl, rfl, rfl⟩

/-- Witness for C10: the loaded sample `"x"` is a text payload and the
serializer encodes it through the text branch. -/
theorem payloads_always_text_witness :
    ∃ s, PyValue.text "x" = PyValue.text s ∧
      serializerTextBranch (PyValue.text "x") = true ∧
      value_serializer (PyValue.text "x") = encodeUtf8 s :=
  payloads_always_text ["x"] (PyValue.text "x")
    (by simp [effectivePayloadValues])
